import Mathlib

/-!
Verification of the MoodSpace backend (`server.py`): a shallow embedding of
its data model and of the Progress Tracker, Analytics Aggregator and story
operations, followed by theorems settling the specification's claims.

Modelling conventions:
* MongoDB collections become `List` values; `find_one {k: v}` is the first
  element matching the filter, `insert_one` appends, and `update_one` with
  `$inc` increments the fields of the first matching element.
* Python `int` becomes `Int`; the arithmetic in `get_mood_analytics` is
  carried out in `Rat` (see `pyRound1` for why this is exact here).
* `datetime` timestamps are only ever rendered via `strftime('%Y-%m-%d')`
  into prompt text, so they are embedded as their rendered `String`.
* The external LLM (`chat.send_message`) is an explicit function parameter
  `llm : String → String`; operations that may call it also return the
  number of calls they made, so "no call is performed" is expressible.
-/

/-- Data model `MoodEntry` (server.py lines 40-47). The `timestamp` field is
embedded as its `%Y-%m-%d` rendering (the only use the analytics code makes
of it). -/
structure MoodEntry where
  id : String
  user_session : String
  mood_score : Int
  emotions : List String
  description : String
  timestamp : String
  ai_insights : Option String
deriving Repr, DecidableEq

/-- Request model `MoodEntryCreate` (server.py lines 49-53): the fields a
client may supply when submitting a mood. Note there is no approval or
insight field, and `mood_score` is a bare `int`. -/
structure MoodEntryCreate where
  user_session : String
  mood_score : Int
  emotions : List String
  description : String
deriving Repr, DecidableEq

/-- A raw JSON-ish mood-submission body before pydantic validation: each
declared field is either absent (`none`) or present with the declared type.
(Type coercion failures are folded into absence; only presence and range
matter to the claims.) -/
structure MoodRequest where
  user_session : Option String
  mood_score : Option Int
  emotions : Option (List String)
  description : Option String
deriving Repr, DecidableEq

/-- Pydantic validation of a mood-submission body against `MoodEntryCreate`
(server.py lines 49-53). The class declares `user_session: str`,
`mood_score: int`, `emotions: List[str]`, `description: str` with no
`Field` constraints, so validation checks only that each required field is
present with the right type: in particular no bound is enforced on
`mood_score`. Returns `none` exactly when pydantic raises a validation
error. -/
def MoodRequest.validate (r : MoodRequest) : Option MoodEntryCreate :=
  match r.user_session, r.mood_score, r.emotions, r.description with
  | some us, some ms, some em, some de =>
      some { user_session := us, mood_score := ms, emotions := em, description := de }
  | _, _, _, _ => none

/-- Data model `AnonymousStory` (server.py lines 55-63). `timestamp` is kept
as an abstract string. -/
structure AnonymousStory where
  id : String
  user_session : String
  title : String
  story : String
  category : String
  is_approved : Bool
  timestamp : String
  support_count : Int
deriving Repr, DecidableEq

/-- Request model `AnonymousStoryCreate` (server.py lines 65-69): the only
fields a client may supply when creating a story; there is no approval flag
and no support counter. -/
structure AnonymousStoryCreate where
  user_session : String
  title : String
  story : String
  category : String
deriving Repr, DecidableEq

/-- Data model `UserProgress` (server.py lines 79-85), with its pydantic
defaults captured by `UserProgress.fresh`. -/
structure UserProgress where
  id : String
  user_session : String
  total_points : Int
  completed_challenges : List String
  current_streak : Int
  mood_entries_count : Int
deriving Repr, DecidableEq

/-- `UserProgress(user_session=s)` with all defaults (server.py lines
79-85): `total_points = 0`, `completed_challenges = []`,
`current_streak = 0`, `mood_entries_count = 0`; the `id` default is a fresh
uuid4, supplied here by the caller. -/
def UserProgress.fresh (newId : String) (s : String) : UserProgress :=
  { id := newId, user_session := s, total_points := 0,
    completed_challenges := [], current_streak := 0, mood_entries_count := 0 }

/-- The `user_progress` collection: a list of documents in insertion order. -/
abbrev ProgressStore := List UserProgress

/-- `db.user_progress.find_one({"user_session": s})`: the first document of
the collection whose `user_session` equals `s`, if any. -/
def findProgress (store : ProgressStore) (s : String) : Option UserProgress :=
  store.find? (fun p => p.user_session = s)

/-- `db.user_progress.update_one({"user_session": s}, upd)`: apply `upd` to
the first matching document, leaving everything else in place; a no-op when
nothing matches. -/
def updateFirstProgress (store : ProgressStore) (s : String)
    (upd : UserProgress → UserProgress) : ProgressStore :=
  match store with
  | [] => []
  | p :: rest =>
      if p.user_session = s then upd p :: rest
      else p :: updateFirstProgress rest s upd

/-- `update_user_progress(user_session, activity_type, points=5)` (server.py
lines 250-265). If no record exists for the session, insert a fresh one with
`total_points = points` and, for `"mood_entry"`, `mood_entries_count = 1`;
otherwise `$inc` `total_points` by `points` and, for `"mood_entry"`,
`mood_entries_count` by 1. `newId` stands for the uuid4 the lazy creation
would generate. -/
def update_user_progress (newId : String) (user_session : String)
    (activity_type : String) (store : ProgressStore)
    (points : Int := 5) : ProgressStore :=
  match findProgress store user_session with
  | none =>
      let base := { UserProgress.fresh newId user_session with total_points := points }
      let progress_obj :=
        if activity_type = "mood_entry" then { base with mood_entries_count := 1 }
        else base
      store ++ [progress_obj]
  | some _ =>
      updateFirstProgress store user_session (fun p =>
        let p := { p with total_points := p.total_points + points }
        if activity_type = "mood_entry" then
          { p with mood_entries_count := p.mood_entries_count + 1 }
        else p)

/-- `get_user_progress(user_session)` (server.py lines 240-248): return the
existing record, or lazily create, persist and return a fresh one. -/
def get_user_progress (newId : String) (user_session : String)
    (store : ProgressStore) : UserProgress × ProgressStore :=
  match findProgress store user_session with
  | none =>
      let progress_obj := UserProgress.fresh newId user_session
      (progress_obj, store ++ [progress_obj])
  | some progress => (progress, store)

/-- Round a rational to the nearest integer, ties to even. This is the
rounding CPython's `round` applies to the exact decimal value of its float
argument. In `get_mood_analytics` the argument is `10 * (sum / n)` with
integer `sum` and `1 ≤ n ≤ 14`: a tie (`sum/n` at an exact odd multiple of
`1/20`) forces `4 ∣ n`, so the tie value is an odd multiple of `1/4` and is
represented exactly by the float division `sum / n`; away from a tie the
float differs from `sum/n` by far less than the `≥ 1/280` gap to the
nearest tie. Hence this exact-rational rounding agrees with the Python code
on every reachable input. -/
def roundHalfEven (q : ℚ) : ℤ :=
  if q - ⌊q⌋ < 1/2 then ⌊q⌋
  else if 1/2 < q - ⌊q⌋ then ⌊q⌋ + 1
  else if Even ⌊q⌋ then ⌊q⌋ else ⌊q⌋ + 1

/-- Python `round(x, 1)` (server.py line 306): round to one decimal place,
ties to even, as an exact operation on rationals (see `roundHalfEven`). -/
def pyRound1 (q : ℚ) : ℚ := (roundHalfEven (10 * q) : ℚ) / 10

/-- Round a rational to one decimal place with ties away from zero: the
spec's stated reference behavior for `averageMood` (spec §4.2 step 3),
written from the spec's words for comparison with `pyRound1`. -/
def specRound1HalfAway (q : ℚ) : ℚ :=
  ((if q < 0 then -⌊|10 * q| + 1/2⌋ else ⌊|10 * q| + 1/2⌋ : ℤ) : ℚ) / 10

/-- The analytics response (server.py lines 277 and 304-309): either the
no-data message or the stats object. -/
inductive AnalyticsResponse where
  | noData (message : String)
  | stats (analysis : String) (average_mood : ℚ) (total_entries : ℕ) (trend : String)
deriving Repr, DecidableEq

/-- The `trend` field of a stats response. -/
def AnalyticsResponse.trend? : AnalyticsResponse → Option String
  | .noData _ => none
  | .stats _ _ _ t => some t

/-- The `average_mood` field of a stats response. -/
def AnalyticsResponse.averageMood? : AnalyticsResponse → Option ℚ
  | .noData _ => none
  | .stats _ a _ _ => some a

/-- One line of the textual mood rendering built at server.py line 284:
`f"Date: ..., Score: ..., Emotions: ..."`. -/
def moodLine (m : MoodEntry) : String :=
  let emo := String.intercalate ", " m.emotions
  let score := toString m.mood_score
  let date := m.timestamp
  s!"Date: {date}, Score: {score}, Emotions: {emo}"

/-- The pattern-analysis prompt (server.py lines 286-296) with the rendered
mood lines joined by `chr(10)` interpolated into the fixed template. -/
def pattern_prompt (recent_moods : List MoodEntry) : String :=
  let joined := String.intercalate "\n" (recent_moods.map moodLine)
  "\n        Analyze this 2-week mood pattern for a young person:\n        "
    ++ joined
    ++ "\n        \n        Provide a brief, encouraging analysis (3-4 sentences) highlighting:\n        1. Any positive trends or patterns\n        2. Areas for gentle attention\n        3. One specific, actionable suggestion for improvement\n        \n        Be supportive and focus on growth rather than problems.\n        "

/-- The arithmetic mean computed at server.py line 302:
`sum(mood['mood_score'] for mood in recent_moods) / len(recent_moods)`,
exact (see `pyRound1` for why float effects are absent here). -/
def avg_mood (recent_moods : List MoodEntry) : ℚ :=
  ((recent_moods.map (fun m => m.mood_score)).sum : ℚ) / (recent_moods.length : ℚ)

/-- `get_mood_analytics(user_session)` (server.py lines 268-311) after the
window fetch: `recent_moods` is the fetched window (most recent first, at
most 14 entries) and `llm` the Insight Generator. Returns the response
together with the number of Insight Generator calls performed. -/
def get_mood_analytics (llm : String → String)
    (recent_moods : List MoodEntry) : AnalyticsResponse × ℕ :=
  match recent_moods with
  | [] => (.noData "No mood data available", 0)
  | first :: _ =>
      let analysis := llm (pattern_prompt recent_moods)
      let avg := avg_mood recent_moods
      (.stats analysis (pyRound1 avg) recent_moods.length
        (if avg < (first.mood_score : ℚ) then "improving" else "stable"), 1)

/-- The `stories` collection. -/
abbrev StoryStore := List AnonymousStory

/-- `db.stories.find_one({"id": i})`-style lookup: first story whose `id`
equals `i`. -/
def findStory (store : StoryStore) (i : String) : Option AnonymousStory :=
  store.find? (fun st => st.id = i)

/-- `create_story(story_data)` (server.py lines 141-146): build an
`AnonymousStory` from the request body, with the model defaults
`is_approved = False` and `support_count = 0` (server.py lines 61-63),
insert it, and return it. `newId` and `ts` stand for the generated uuid4
and timestamp. -/
def create_story (newId : String) (ts : String)
    (story_data : AnonymousStoryCreate) (store : StoryStore) :
    AnonymousStory × StoryStore :=
  let story_obj : AnonymousStory :=
    { id := newId, user_session := story_data.user_session,
      title := story_data.title, story := story_data.story,
      category := story_data.category, is_approved := false,
      timestamp := ts, support_count := 0 }
  (story_obj, store ++ [story_obj])

/-- `support_story(story_id)` (server.py lines 157-163):
`update_one({"id": story_id}, {"$inc": {"support_count": 1}})` — increment
the support counter of the first story with that id; a silent no-op when
none matches. -/
def support_story (story_id : String) (store : StoryStore) : StoryStore :=
  match store with
  | [] => []
  | st :: rest =>
      if st.id = story_id then { st with support_count := st.support_count + 1 } :: rest
      else st :: support_story story_id rest

/-- One sequential operation on the `user_progress` collection: either the
progress query (server.py lines 240-248, with its lazy creation) or the
activity-recording helper (server.py lines 250-265). Each carries the uuid4
a lazy creation would draw. -/
inductive ProgressOp where
  | query (newId : String) (user_session : String)
  | record (newId : String) (user_session : String)
      (activity_type : String) (points : Int)
deriving Repr, DecidableEq

/-- The `points` increment an operation applies (the query applies none). -/
def ProgressOp.pointsOf : ProgressOp → Int
  | .query _ _ => 0
  | .record _ _ _ pts => pts

/-- Apply one operation to the collection (the query's returned record is
discarded; only the store effect matters here). -/
def ProgressOp.apply (op : ProgressOp) (store : ProgressStore) : ProgressStore :=
  match op with
  | .query newId s => (get_user_progress newId s store).2
  | .record newId s kind pts => update_user_progress newId s kind store pts

/-- Apply a sequence of operations left to right (sequential execution). -/
def applyOps (ops : List ProgressOp) (store : ProgressStore) : ProgressStore :=
  ops.foldl (fun st op => op.apply st) store

/-- Well-formedness of the `user_progress` collection: at most one record
per session (spec §3: session is a unique key for UserProgress). -/
def wfProgress (store : ProgressStore) : Prop :=
  (store.map (fun p => p.user_session)).Nodup

instance : DecidablePred wfProgress := fun store => by
  unfold wfProgress; infer_instance

/-- A concrete mood entry with a given score, used to instantiate theorems
at specific inputs. -/
def sampleEntry (score : Int) : MoodEntry :=
  { id := "e", user_session := "s", mood_score := score,
    emotions := ["calm"], description := "d", timestamp := "2024-01-01",
    ai_insights := none }

/-! ### Basic lemmas about the embedded collection operations -/

/-- A record returned by `find_one {"user_session": s}` has session `s`. -/
theorem findProgress_session {store : ProgressStore} {s : String}
    {p : UserProgress} (h : findProgress store s = some p) :
    p.user_session = s := by
  have := List.find?_some h
  simpa using this

/-- Appending a document does not change what `find_one` returns for a
session that already has a record. -/
theorem findProgress_append_left {store : ProgressStore} {s : String}
    {p : UserProgress} (q : UserProgress) (h : findProgress store s = some p) :
    findProgress (store ++ [q]) s = some p := by
  unfold findProgress at *
  rw [List.find?_append, h]
  rfl

/-- After inserting a record for a session that had none, `find_one` finds
exactly the inserted record. -/
theorem findProgress_append_new {store : ProgressStore} {s : String}
    {q : UserProgress} (h : findProgress store s = none)
    (hq : q.user_session = s) :
    findProgress (store ++ [q]) s = some q := by
  unfold findProgress at *
  rw [List.find?_append, h]
  simp [hq]

/-- If no record exists for `s`, then `s` is not among the stored sessions. -/
theorem not_mem_sessions_of_findProgress_none {store : ProgressStore}
    {s : String} (h : findProgress store s = none) :
    s ∉ store.map (fun p => p.user_session) := by
  unfold findProgress at h
  rw [List.find?_eq_none] at h
  intro hmem
  rcases List.mem_map.mp hmem with ⟨p, hp, hps⟩
  exact (by simpa [hps] using h p hp)

/-- `update_one` on the first record matching session `s` makes `find_one`
for `s` return the updated record, provided the update keeps the session. -/
theorem findProgress_updateFirst {store : ProgressStore} {s : String}
    {p : UserProgress} (upd : UserProgress → UserProgress)
    (hsess : ∀ q, (upd q).user_session = q.user_session)
    (h : findProgress store s = some p) :
    findProgress (updateFirstProgress store s upd) s = some (upd p) := by
  induction store with
  | nil => simp [findProgress] at h
  | cons hd tl ih =>
      by_cases hhd : hd.user_session = s
      · have hp : hd = p := by
          simp [findProgress, List.find?_cons, hhd] at h
          exact h
        subst hp
        simp [findProgress, updateFirstProgress, hhd, List.find?_cons, hsess]
      · have h' : findProgress tl s = some p := by
          simpa [findProgress, List.find?_cons, hhd] using h
        have := ih h'
        simpa [findProgress, updateFirstProgress, hhd, List.find?_cons] using this

/-- `update_one` keyed on session `t` does not change what `find_one`
returns for a different session `s`, provided the update keeps the
session. -/
theorem findProgress_updateFirst_ne {store : ProgressStore} {t s : String}
    (upd : UserProgress → UserProgress) (hne : t ≠ s)
    (hsess : ∀ q, (upd q).user_session = q.user_session) :
    findProgress (updateFirstProgress store t upd) s = findProgress store s := by
  have hst : ¬(s = t) := fun h => hne h.symm
  induction store with
  | nil => rfl
  | cons hd tl ih =>
      by_cases hhd : hd.user_session = t
      · have hus : (upd hd).user_session ≠ s := by
          rw [hsess hd, hhd]; exact hne
        simp [findProgress, updateFirstProgress, hhd, List.find?_cons, hus, hne]
      · by_cases hs : hd.user_session = s
        · simp [findProgress, updateFirstProgress, hhd, List.find?_cons, hs, hst]
        · have := ih
          simpa [findProgress, updateFirstProgress, hhd, List.find?_cons, hs]
            using this

/-- A session-preserving `update_one` leaves the list of stored sessions
unchanged. -/
theorem sessions_updateFirst (store : ProgressStore) (t : String)
    (upd : UserProgress → UserProgress)
    (hsess : ∀ q, (upd q).user_session = q.user_session) :
    (updateFirstProgress store t upd).map (fun p => p.user_session)
      = store.map (fun p => p.user_session) := by
  induction store with
  | nil => rfl
  | cons hd tl ih =>
      by_cases hhd : hd.user_session = t
      · simp [updateFirstProgress, hhd, hsess]
      · simp [updateFirstProgress, hhd, ih]

/-- Unfolding of `update_user_progress` on the no-record branch. -/
theorem update_user_progress_of_none {store : ProgressStore} {s : String}
    (newId kind : String) (pts : Int) (h : findProgress store s = none) :
    update_user_progress newId s kind store pts
      = store ++ [if kind = "mood_entry" then
          { UserProgress.fresh newId s with total_points := pts, mood_entries_count := 1 }
        else { UserProgress.fresh newId s with total_points := pts }] := by
  unfold update_user_progress
  rw [h]

/-- Unfolding of `update_user_progress` on the existing-record branch. -/
theorem update_user_progress_of_some {store : ProgressStore} {s : String}
    {p : UserProgress} (newId kind : String) (pts : Int)
    (h : findProgress store s = some p) :
    update_user_progress newId s kind store pts
      = updateFirstProgress store s (fun q =>
          let q := { q with total_points := q.total_points + pts }
          if kind = "mood_entry" then
            { q with mood_entries_count := q.mood_entries_count + 1 }
          else q) := by
  unfold update_user_progress
  rw [h]

/-- The increment `update_user_progress` applies to an existing record
keeps the session. -/
theorem update_inc_session (kind : String) (pts : Int) (q : UserProgress) :
    (let q := { q with total_points := q.total_points + pts }
     if kind = "mood_entry" then
       { q with mood_entries_count := q.mood_entries_count + 1 }
     else q).user_session = q.user_session := by
  by_cases hk : kind = "mood_entry" <;> simp [hk]

/-! ### Claim C1: two activity recordings on a fresh session -/

/-- Claim C1: for a fresh session (no UserProgress record), calling
`update_user_progress(session, "mood_entry")` twice with the default 5
points first creates a record with `total_points = 5` and
`mood_entries_count = 1`, and the second call increments both, leaving a
persisted record with `mood_entries_count = 2` and `total_points = 10`. -/
theorem recordActivity_twice_on_fresh_session (store : ProgressStore)
    (id1 id2 s : String) (hfresh : findProgress store s = none) :
    (∃ p1, findProgress (update_user_progress id1 s "mood_entry" store) s = some p1 ∧
       p1.total_points = 5 ∧ p1.mood_entries_count = 1) ∧
    (∃ p2, findProgress (update_user_progress id2 s "mood_entry"
          (update_user_progress id1 s "mood_entry" store)) s = some p2 ∧
       p2.total_points = 10 ∧ p2.mood_entries_count = 2) := by
  have h1 : update_user_progress id1 s "mood_entry" store
      = store ++ [{ UserProgress.fresh id1 s with total_points := 5, mood_entries_count := 1 }] := by
    rw [update_user_progress_of_none id1 "mood_entry" 5 hfresh]
    simp
  have hfind1 : findProgress (update_user_progress id1 s "mood_entry" store) s
      = some { UserProgress.fresh id1 s with total_points := 5, mood_entries_count := 1 } := by
    rw [h1]
    exact findProgress_append_new hfresh rfl
  refine ⟨⟨_, hfind1, rfl, rfl⟩, ?_⟩
  rw [update_user_progress_of_some id2 "mood_entry" 5 hfind1]
  have hfind2 := findProgress_updateFirst
    (fun p =>
      let p := { p with total_points := p.total_points + 5 }
      if "mood_entry" = "mood_entry" then
        { p with mood_entries_count := p.mood_entries_count + 1 }
      else p)
    (fun q => by simp) hfind1
  exact ⟨_, by simpa using hfind2, rfl, rfl⟩

/-- Witness for C1 at the empty store and session `"s"`. -/
theorem recordActivity_twice_on_fresh_session_witness :
    (∃ p1, findProgress (update_user_progress "a" "s" "mood_entry" []) "s" = some p1 ∧
       p1.total_points = 5 ∧ p1.mood_entries_count = 1) ∧
    (∃ p2, findProgress (update_user_progress "b" "s" "mood_entry"
          (update_user_progress "a" "s" "mood_entry" [])) "s" = some p2 ∧
       p2.total_points = 10 ∧ p2.mood_entries_count = 2) :=
  recordActivity_twice_on_fresh_session [] "a" "b" "s" rfl

/-! ### Claim C6: recordActivity on an existing record touches only the
point total and (for mood entries) the mood count -/

/-- Claim C6: when a UserProgress record already exists for the session,
`update_user_progress` adds `pts` to `total_points`, adds 1 to
`mood_entries_count` exactly when the activity is `"mood_entry"`, and
leaves `id`, `user_session`, `completed_challenges` and `current_streak`
unchanged. -/
theorem recordActivity_frame (store : ProgressStore) (newId s kind : String)
    (pts : Int) (p : UserProgress) (h : findProgress store s = some p) :
    ∃ q, findProgress (update_user_progress newId s kind store pts) s = some q ∧
      q.total_points = p.total_points + pts ∧
      q.mood_entries_count = p.mood_entries_count +
        (if kind = "mood_entry" then 1 else 0) ∧
      q.id = p.id ∧ q.user_session = p.user_session ∧
      q.completed_challenges = p.completed_challenges ∧
      q.current_streak = p.current_streak := by
  rw [update_user_progress_of_some newId kind pts h]
  refine ⟨_, findProgress_updateFirst _ (update_inc_session kind pts) h, ?_⟩
  by_cases hk : kind = "mood_entry" <;> simp [hk]

/-- Witness for C6 at a one-record store, a non-default point amount and a
non-mood activity kind. -/
theorem recordActivity_frame_witness :
    ∃ q, findProgress (update_user_progress "n" "s" "challenge"
        [{ id := "r", user_session := "s", total_points := 7,
           completed_challenges := ["c1"], current_streak := 2,
           mood_entries_count := 3 }] 4) "s" = some q ∧
      q.total_points = (7 : Int) + 4 ∧
      q.mood_entries_count = (3 : Int) + (if "challenge" = "mood_entry" then 1 else 0) ∧
      q.id = "r" ∧ q.user_session = "s" ∧
      q.completed_challenges = ["c1"] ∧
      q.current_streak = (2 : Int) :=
  recordActivity_frame
    [{ id := "r", user_session := "s", total_points := 7,
       completed_challenges := ["c1"], current_streak := 2,
       mood_entries_count := 3 }] "n" "s" "challenge" 4
    { id := "r", user_session := "s", total_points := 7,
      completed_challenges := ["c1"], current_streak := 2,
      mood_entries_count := 3 } rfl

/-! ### Claim C7: store invariants across operation sequences -/

/-- Inserting a record for a session that has none preserves the
one-record-per-session invariant. -/
theorem wfProgress_append {store : ProgressStore} {q : UserProgress}
    (hwf : wfProgress store) (h : findProgress store q.user_session = none) :
    wfProgress (store ++ [q]) := by
  have hnot := not_mem_sessions_of_findProgress_none h
  unfold wfProgress at *
  rw [List.map_append, List.nodup_append]
  refine ⟨hwf, List.nodup_singleton _, ?_⟩
  intro a ha hb
  simp only [List.map_cons, List.map_nil, List.mem_singleton] at hb
  exact hnot (hb ▸ ha)

/-- One progress operation preserves well-formedness of the collection and
every existing record: the record stays present (same session, never
deleted) and its `total_points` and `mood_entries_count` never decrease,
provided the operation's point amount is non-negative. -/
theorem progressOp_step (op : ProgressOp) (store : ProgressStore)
    (hpts : 0 ≤ op.pointsOf) (hwf : wfProgress store) :
    wfProgress (op.apply store) ∧
    ∀ s p, findProgress store s = some p →
      ∃ q, findProgress (op.apply store) s = some q ∧
        p.total_points ≤ q.total_points ∧
        p.mood_entries_count ≤ q.mood_entries_count := by
  cases op with
  | query newId t =>
      cases h : findProgress store t with
      | none =>
          have happ : ProgressOp.apply (.query newId t) store
              = store ++ [UserProgress.fresh newId t] := by
            simp [ProgressOp.apply, get_user_progress, h]
          rw [happ]
          constructor
          · exact wfProgress_append hwf h
          · intro s p hp
            exact ⟨p, findProgress_append_left _ hp, le_refl _, le_refl _⟩
      | some p0 =>
          have happ : ProgressOp.apply (.query newId t) store = store := by
            simp [ProgressOp.apply, get_user_progress, h]
          rw [happ]
          exact ⟨hwf, fun s p hp => ⟨p, hp, le_refl _, le_refl _⟩⟩
  | record newId t kind pts =>
      have hpts' : (0 : Int) ≤ pts := hpts
      cases h : findProgress store t with
      | none =>
          have happ : ProgressOp.apply (.record newId t kind pts) store
              = store ++ [if kind = "mood_entry" then
                  { UserProgress.fresh newId t with total_points := pts, mood_entries_count := 1 }
                else { UserProgress.fresh newId t with total_points := pts }] := by
            simp [ProgressOp.apply]
            exact update_user_progress_of_none newId kind pts h
          rw [happ]
          constructor
          · have hsess : (if kind = "mood_entry" then
                  { UserProgress.fresh newId t with total_points := pts, mood_entries_count := 1 }
                else { UserProgress.fresh newId t with total_points := pts }).user_session = t := by
              by_cases hk : kind = "mood_entry" <;> simp [hk, UserProgress.fresh]
            exact wfProgress_append hwf (hsess.symm ▸ h)
          · intro s p hp
            exact ⟨p, findProgress_append_left _ hp, le_refl _, le_refl _⟩
      | some p0 =>
          have happ : ProgressOp.apply (.record newId t kind pts) store
              = updateFirstProgress store t (fun q =>
                  let q := { q with total_points := q.total_points + pts }
                  if kind = "mood_entry" then
                    { q with mood_entries_count := q.mood_entries_count + 1 }
                  else q) := by
            simp [ProgressOp.apply]
            exact update_user_progress_of_some newId kind pts h
          rw [happ]
          constructor
          · unfold wfProgress
            rw [sessions_updateFirst store t _ (update_inc_session kind pts)]
            exact hwf
          · intro s p hp
            by_cases hs : s = t
            · subst hs
              have hpp0 : p = p0 := by rw [hp] at h; exact (Option.some_inj.mp h)
              subst hpp0
              refine ⟨_, findProgress_updateFirst _ (update_inc_session kind pts) hp, ?_⟩
              by_cases hk : kind = "mood_entry" <;>
                simp [hk] <;> omega
            · have hne : t ≠ s := fun ht => hs ht.symm
              rw [findProgress_updateFirst_ne _ hne (update_inc_session kind pts)]
              exact ⟨p, hp, le_refl _, le_refl _⟩

/-- Claim C7: starting from a well-formed collection (at most one
UserProgress record per session), any sequence of progress operations
(activity recordings and progress queries with their lazy creation), each
with a non-negative point amount, executed sequentially, keeps the
collection well-formed, and any record present at the start is still
present at the end — never deleted or overwritten downward — with
`total_points` and `mood_entries_count` monotonically non-decreasing. -/
theorem progress_store_invariants (ops : List ProgressOp)
    (store : ProgressStore) (s : String) (p : UserProgress)
    (hwf : wfProgress store) (hpts : ∀ op ∈ ops, 0 ≤ op.pointsOf)
    (hrec : findProgress store s = some p) :
    wfProgress (applyOps ops store) ∧
    ∃ q, findProgress (applyOps ops store) s = some q ∧
      p.total_points ≤ q.total_points ∧
      p.mood_entries_count ≤ q.mood_entries_count := by
  induction ops generalizing store p with
  | nil => exact ⟨hwf, p, hrec, le_refl _, le_refl _⟩
  | cons op rest ih =>
      have hop := progressOp_step op store (hpts op (by simp)) hwf
      rcases hop.2 s p hrec with ⟨q, hq, hq1, hq2⟩
      have hrest := ih (op.apply store) q hop.1
        (fun o ho => hpts o (by simp [ho])) hq
      rcases hrest.2 with ⟨r, hr, hr1, hr2⟩
      refine ⟨by simpa [applyOps] using hrest.1,
        r, by simpa [applyOps] using hr, le_trans hq1 hr1, le_trans hq2 hr2⟩

/-- Witness for C7: a two-session store and a mixed operation sequence. -/
theorem progress_store_invariants_witness :
    wfProgress (applyOps
      [.query "i1" "u", .record "i2" "s" "mood_entry" 5,
       .record "i3" "u" "challenge" 0, .query "i4" "s"]
      [{ id := "r", user_session := "s", total_points := 7,
         completed_challenges := [], current_streak := 1,
         mood_entries_count := 2 }]) ∧
    ∃ q, findProgress (applyOps
      [.query "i1" "u", .record "i2" "s" "mood_entry" 5,
       .record "i3" "u" "challenge" 0, .query "i4" "s"]
      [{ id := "r", user_session := "s", total_points := 7,
         completed_challenges := [], current_streak := 1,
         mood_entries_count := 2 }]) "s" = some q ∧
      (7 : Int) ≤ q.total_points ∧ (2 : Int) ≤ q.mood_entries_count :=
  progress_store_invariants
    [.query "i1" "u", .record "i2" "s" "mood_entry" 5,
     .record "i3" "u" "challenge" 0, .query "i4" "s"]
    [{ id := "r", user_session := "s", total_points := 7,
       completed_challenges := [], current_streak := 1,
       mood_entries_count := 2 }] "s"
    { id := "r", user_session := "s", total_points := 7,
      completed_challenges := [], current_streak := 1,
      mood_entries_count := 2 }
    (by decide) (by decide) rfl

/-! ### Claims C8 and C10: anonymous stories -/

/-- One support increment moves `find_one` by id to the incremented record
(the first matching story keeps its position, so it stays the first
match). -/
theorem findStory_support {store : StoryStore} {i : String}
    {st : AnonymousStory} (h : findStory store i = some st) :
    findStory (support_story i store) i
      = some { st with support_count := st.support_count + 1 } := by
  induction store with
  | nil => simp [findStory] at h
  | cons hd tl ih =>
      by_cases hhd : hd.id = i
      · have hst : hd = st := by
          simp [findStory, List.find?_cons, hhd] at h
          exact h
        subst hst
        simp [findStory, support_story, hhd, List.find?_cons]
      · have h' : findStory tl i = some st := by
          simpa [findStory, List.find?_cons, hhd] using h
        have := ih h'
        simpa [findStory, support_story, hhd, List.find?_cons] using this

/-- Claim C8: for a story present in the collection with `support_count = 0`,
applying the support-increment endpoint `N` times yields
`support_count = N`, for every `N` — no cap, no per-session
de-duplication (the operation does not even receive a session). -/
theorem support_story_n_times (store : StoryStore) (i : String)
    (st : AnonymousStory) (N : ℕ) (hfind : findStory store i = some st)
    (hzero : st.support_count = 0) :
    findStory ((support_story i)^[N] store) i
      = some { st with support_count := (N : Int) } := by
  have key : ∀ (n : ℕ) (str : StoryStore) (s0 : AnonymousStory),
      findStory str i = some s0 →
      findStory ((support_story i)^[n] str) i
        = some { s0 with support_count := s0.support_count + (n : Int) } := by
    intro n
    induction n with
    | zero => intro str s0 h; simpa using h
    | succ m ihm =>
        intro str s0 h
        rw [Function.iterate_succ_apply]
        have h1 := findStory_support h
        have := ihm (support_story i str) _ h1
        rw [this]
        congr 1
        simp
        omega
  have := key N store st hfind
  rw [this, hzero]
  simp

/-- Witness for C8 at a two-story collection and N = 3. -/
theorem support_story_n_times_witness :
    findStory ((support_story "a")^[3]
      [{ id := "a", user_session := "u", title := "t", story := "b",
         category := "anxiety", is_approved := false, timestamp := "d",
         support_count := 0 },
       { id := "z", user_session := "v", title := "t2", story := "b2",
         category := "stress", is_approved := true, timestamp := "d",
         support_count := 9 }]) "a"
      = some { id := "a", user_session := "u", title := "t", story := "b",
               category := "anxiety", is_approved := false, timestamp := "d",
               support_count := (3 : Int) } :=
  support_story_n_times
    [{ id := "a", user_session := "u", title := "t", story := "b",
       category := "anxiety", is_approved := false, timestamp := "d",
       support_count := 0 },
     { id := "z", user_session := "v", title := "t2", story := "b2",
       category := "stress", is_approved := true, timestamp := "d",
       support_count := 9 }] "a"
    { id := "a", user_session := "u", title := "t", story := "b",
      category := "anxiety", is_approved := false, timestamp := "d",
      support_count := 0 } 3 rfl rfl

/-- Claim C10: every story created through the story-submission operation
is persisted with `is_approved = false` and `support_count = 0`, whatever
the request body contains — `AnonymousStoryCreate` has no approval or
support field, and `create_story` fills both from the model defaults. -/
theorem create_story_defaults (newId ts : String)
    (story_data : AnonymousStoryCreate) (store : StoryStore) :
    (create_story newId ts story_data store).1.is_approved = false ∧
    (create_story newId ts story_data store).1.support_count = 0 ∧
    (create_story newId ts story_data store).2
      = store ++ [(create_story newId ts story_data store).1] :=
  ⟨rfl, rfl, rfl⟩

/-! ### Claims C3, C9, C2: analytics aggregation -/

/-- Claim C3: on an empty fetched window, `get_mood_analytics` returns the
no-data result `{message: "No mood data available"}` and performs zero
Insight Generator calls (no prompt is built or sent), whatever the
generator would answer. -/
theorem analytics_empty_no_data (llm : String → String) :
    get_mood_analytics llm [] = (.noData "No mood data available", 0) := rfl

/-- Claim C9: on a window with exactly one entry, the trend is always
`"stable"`: the most-recent score equals the mean of the singleton window,
so the strict comparison fails. -/
theorem analytics_single_entry_stable (llm : String → String) (m : MoodEntry) :
    (get_mood_analytics llm [m]).1.trend? = some "stable" := by
  simp [get_mood_analytics, avg_mood, AnalyticsResponse.trend?]

/-- Claim C2: on any non-empty window the trend is `"improving"` exactly
when the most-recent entry's score strictly exceeds the unrounded mean, and
`"stable"` in every other case; in particular, scores `[8,6,7]`
(most-recent-first) give `average_mood = 7` and trend `"improving"`. -/
theorem analytics_trend_rule (llm : String → String)
    (first : MoodEntry) (rest : List MoodEntry)
    (e1 e2 e3 : MoodEntry) (h1 : e1.mood_score = 8) (h2 : e2.mood_score = 6)
    (h3 : e3.mood_score = 7) :
    ((get_mood_analytics llm (first :: rest)).1.trend? = some "improving" ↔
        avg_mood (first :: rest) < (first.mood_score : ℚ)) ∧
    ((get_mood_analytics llm (first :: rest)).1.trend? = some "improving" ∨
        (get_mood_analytics llm (first :: rest)).1.trend? = some "stable") ∧
    (get_mood_analytics llm [e1, e2, e3]).1.averageMood? = some 7 ∧
    (get_mood_analytics llm [e1, e2, e3]).1.trend? = some "improving" := by
  refine ⟨?_, ?_, ?_, ?_⟩
  · by_cases hc : avg_mood (first :: rest) < (first.mood_score : ℚ) <;>
      simp [get_mood_analytics, AnalyticsResponse.trend?, hc]
  · by_cases hc : avg_mood (first :: rest) < (first.mood_score : ℚ) <;>
      simp [get_mood_analytics, AnalyticsResponse.trend?, hc]
  · have : avg_mood [e1, e2, e3] = 7 := by
      simp [avg_mood, h1, h2, h3]
      norm_num
    simp [get_mood_analytics, AnalyticsResponse.averageMood?, this,
      pyRound1, roundHalfEven]
    norm_num
  · have : avg_mood [e1, e2, e3] = 7 := by
      simp [avg_mood, h1, h2, h3]
      norm_num
    simp [get_mood_analytics, AnalyticsResponse.trend?, this, h1]
    norm_num

/-- Witness for C2 at concrete entries with scores 8, 6, 7. -/
theorem analytics_trend_rule_witness :
    ((get_mood_analytics (fun _ => "") (sampleEntry 8 :: [])).1.trend?
        = some "improving" ↔
      avg_mood (sampleEntry 8 :: []) < ((sampleEntry 8).mood_score : ℚ)) ∧
    ((get_mood_analytics (fun _ => "") (sampleEntry 8 :: [])).1.trend?
        = some "improving" ∨
      (get_mood_analytics (fun _ => "") (sampleEntry 8 :: [])).1.trend?
        = some "stable") ∧
    (get_mood_analytics (fun _ => "")
      [sampleEntry 8, sampleEntry 6, sampleEntry 7]).1.averageMood? = some 7 ∧
    (get_mood_analytics (fun _ => "")
      [sampleEntry 8, sampleEntry 6, sampleEntry 7]).1.trend? = some "improving" :=
  analytics_trend_rule (fun _ => "") (sampleEntry 8) []
    (sampleEntry 8) (sampleEntry 6) (sampleEntry 7) rfl rfl rfl

/-! ### Claim C4: the rounding of average_mood -/

/-- Round-half-to-even lands within 1/2 of its argument. -/
theorem roundHalfEven_dist (q : ℚ) : |(roundHalfEven q : ℚ) - q| ≤ 1/2 := by
  have h0 : (⌊q⌋ : ℚ) ≤ q := Int.floor_le q
  have h1 : q < ⌊q⌋ + 1 := Int.lt_floor_add_one q
  unfold roundHalfEven
  split_ifs <;> rw [abs_le] <;> push_cast <;> constructor <;> linarith

/-- The one-decimal rounding used for `average_mood` lands within 1/20 of
the exact mean. -/
theorem pyRound1_dist (q : ℚ) : |pyRound1 q - q| ≤ 1/20 := by
  have h := roundHalfEven_dist (10 * q)
  unfold pyRound1
  rw [abs_le] at *
  constructor <;> linarith [h.1, h.2]

/-- Claim C4 as amended: on every non-empty window, `average_mood` is the
arithmetic mean of the `mood_score` values rounded to one decimal place
with ties rounded half to even (Python's `round`), and in particular lies
within 1/20 of the exact mean. -/
theorem analytics_average_rounding (llm : String → String)
    (moods : List MoodEntry) (h : moods ≠ []) :
    (get_mood_analytics llm moods).1.averageMood?
      = some (pyRound1 ((moods.map (fun m => (m.mood_score : ℚ))).sum
          / (moods.length : ℚ))) ∧
    ∀ a, (get_mood_analytics llm moods).1.averageMood? = some a →
      (∃ k : ℤ, a = (k : ℚ)/10) ∧ |a - avg_mood moods| ≤ 1/20 := by
  match moods with
  | first :: rest =>
      constructor
      · rfl
      · intro a ha
        simp only [get_mood_analytics, AnalyticsResponse.averageMood?,
          Option.some_inj] at ha
        rw [← ha]
        exact ⟨⟨roundHalfEven (10 * avg_mood (first :: rest)), rfl⟩,
          pyRound1_dist _⟩

/-- Witness for C4's amended theorem at a window with scores 8 and 7. -/
theorem analytics_average_rounding_witness :
    (get_mood_analytics (fun _ => "") [sampleEntry 8, sampleEntry 7]).1.averageMood?
      = some (pyRound1 (([sampleEntry 8, sampleEntry 7].map
          (fun m => (m.mood_score : ℚ))).sum
          / (([sampleEntry 8, sampleEntry 7] : List MoodEntry).length : ℚ))) ∧
    ∀ a, (get_mood_analytics (fun _ => "")
        [sampleEntry 8, sampleEntry 7]).1.averageMood? = some a →
      (∃ k : ℤ, a = (k : ℚ)/10) ∧
      |a - avg_mood [sampleEntry 8, sampleEntry 7]| ≤ 1/20 :=
  analytics_average_rounding (fun _ => "") [sampleEntry 8, sampleEntry 7]
    (by simp)

/-- Counterexample to claim C4 as stated: on scores `[2,1,1,1]` the mean is
`1.25`, Python's rounding returns `1.2`, but rounding half away from zero
would give `1.3` — the returned `average_mood` is not the half-away-from-
zero rounding of the mean. -/
theorem analytics_average_rounding_counterexample :
    avg_mood [sampleEntry 2, sampleEntry 1, sampleEntry 1, sampleEntry 1] = 5/4 ∧
    (get_mood_analytics (fun _ => "")
        [sampleEntry 2, sampleEntry 1, sampleEntry 1, sampleEntry 1]).1.averageMood?
      = some (6/5) ∧
    specRound1HalfAway
        (avg_mood [sampleEntry 2, sampleEntry 1, sampleEntry 1, sampleEntry 1])
      = 13/10 ∧
    (get_mood_analytics (fun _ => "")
        [sampleEntry 2, sampleEntry 1, sampleEntry 1, sampleEntry 1]).1.averageMood?
      ≠ some (specRound1HalfAway
        (avg_mood [sampleEntry 2, sampleEntry 1, sampleEntry 1, sampleEntry 1])) := by
  have havg : avg_mood [sampleEntry 2, sampleEntry 1, sampleEntry 1, sampleEntry 1]
      = 5/4 := by
    norm_num [avg_mood, sampleEntry]
  have hR : roundHalfEven (25/2 : ℚ) = 12 := by
    have hfloor : ⌊(25/2 : ℚ)⌋ = 12 := by norm_num
    unfold roundHalfEven
    rw [hfloor, if_neg (by norm_num), if_neg (by norm_num),
      if_pos (by decide : Even (12 : ℤ))]
  have hpy : pyRound1 (5/4 : ℚ) = 6/5 := by
    unfold pyRound1
    rw [show (10 : ℚ) * (5/4) = 25/2 by norm_num, hR]
    norm_num
  have hcode : (get_mood_analytics (fun _ => "")
      [sampleEntry 2, sampleEntry 1, sampleEntry 1, sampleEntry 1]).1.averageMood?
      = some (6/5 : ℚ) := by
    simp only [get_mood_analytics, AnalyticsResponse.averageMood?, havg, hpy]
  have hspec : specRound1HalfAway (5/4 : ℚ) = 13/10 := by
    unfold specRound1HalfAway
    rw [if_neg (by norm_num : ¬((5/4 : ℚ) < 0)),
      show |(10 : ℚ) * (5/4)| = 25/2 by rw [abs_of_nonneg] <;> norm_num,
      show ((25 : ℚ)/2 + 1/2) = ((13 : ℤ) : ℚ) by norm_num,
      Int.floor_intCast]
    norm_num
  refine ⟨havg, hcode, by rw [havg]; exact hspec, ?_⟩
  rw [hcode, havg, hspec]
  simp
  norm_num

/-! ### Claim C5: mood_score range validation -/

/-- Claim C5, evaluated against the code: the pydantic request model
`MoodEntryCreate` declares `mood_score: int` with no range constraint, so
requests with `mood_score = 0` and `mood_score = 11` pass validation (no
ValidationError is raised) exactly as the boundary values 1 and 10 do. The
claimed rejection of 0 and 11 does not happen anywhere in the code, even
though the code's own comment documents the 1-10 domain. -/
theorem mood_score_validation_accepts_out_of_range :
    (MoodRequest.validate
      ⟨some "s", some 0, some ["sad"], some "d"⟩).isSome = true ∧
    (MoodRequest.validate
      ⟨some "s", some 11, some ["sad"], some "d"⟩).isSome = true ∧
    (MoodRequest.validate
      ⟨some "s", some 1, some ["sad"], some "d"⟩).isSome = true ∧
    (MoodRequest.validate
      ⟨some "s", some 10, some ["sad"], some "d"⟩).isSome = true :=
  ⟨rfl, rfl, rfl, rfl⟩
